import Mathlib

/-! Verification development for the backend service in src/backend/app.py.

The backend is a Flask app orchestrating two external providers (a YouTube
transcript API and an OpenAI chat-completion API).  The pure request-pipeline
logic of app.py is embedded shallowly below; the two external providers and
the Python standard-library JSON decoder are abstracted as function
parameters, since their code is not part of this repository. -/

/- ## Python string primitives used by app.py -/

/-- Whitespace in the sense of Python's str.strip: space, tab, newline,
carriage return, vertical tab, form feed. -/
def isPySpace (c : Char) : Bool :=
  c = ' ' || c = '\t' || c = '\n' || c = '\r' || c = '\x0b' || c = '\x0c'

/-- Python str.strip on a character list: drop leading and trailing
whitespace. -/
def stripChars (l : List Char) : List Char :=
  ((l.dropWhile isPySpace).reverse.dropWhile isPySpace).reverse

/-- Python str.strip. -/
def pyStrip (s : String) : String := String.mk (stripChars s.data)

/-- Python str.find for a single character, returning the first index if
present.  Python's -1 sentinel is modeled by none. -/
def pyFindIdx (c : Char) : List Char → Option Nat
  | [] => none
  | x :: xs => if x = c then some 0 else (pyFindIdx c xs).map (· + 1)

/-- Python str.rfind for a single character, returning the last index if
present.  Python's -1 sentinel is modeled by none. -/
def pyRFindIdx (c : Char) : List Char → Option Nat
  | [] => none
  | x :: xs =>
    match pyRFindIdx c xs with
    | some j => some (j + 1)
    | none => if x = c then some 0 else none

/-- Python str.join with a separator, as used by ' '.join(parts) in
get_youtube_transcript (app.py line 50). -/
def pyJoin (sep : String) : List String → String
  | [] => ""
  | [x] => x
  | x :: y :: rest => x ++ sep ++ pyJoin sep (y :: rest)

/-- The left curly brace character. -/
def lbrace : Char := '{'

/-- The right curly brace character. -/
def rbrace : Char := '}'

/-- Lines 132-135 of app.py: start_idx = content.find(U+007B),
end_idx = content.rfind(U+007D) + 1; if start_idx != -1 and end_idx != 0,
the slice content[start_idx:end_idx].  Note start_idx != -1 holds exactly
when find succeeds and end_idx != 0 exactly when rfind succeeds (rfind
returns -1, so end_idx = 0, only when no brace is present). -/
def bracedSub (l : List Char) : Option (List Char) :=
  match pyFindIdx lbrace l, pyRFindIdx rbrace l with
  | some i, some j => some ((l.take (j + 1)).drop i)
  | _, _ => none

/- ## JSON values

A successful json.loads on a string whose first character is a left brace
always yields a Python dict, so the abstract decoder below returns the
dict's key/value bindings directly.  JSON decoding itself (Python stdlib
json.loads, external to this repository) is abstracted as a parameter
`decode`; `none` models a raised json.JSONDecodeError. -/

/-- A decoded JSON value. -/
inductive JValue where
  | null : JValue
  | bool (b : Bool) : JValue
  | num (n : Int) : JValue
  | str (s : String) : JValue
  | arr (elems : List JValue) : JValue
  | obj (fields : List (String × JValue)) : JValue

/-- Python dict.get(k, dflt) on decoded JSON object bindings.  json.loads
keeps the last binding for a duplicated key, hence the reversed search. -/
def pyDictGet (kvs : List (String × JValue)) (k : String) (dflt : JValue) : JValue :=
  match kvs.reverse.find? (fun e => e.1 == k) with
  | some e => e.2
  | none => dflt

/- ## The Output Normalizer (quiz and matching-pair parsing) -/

/-- The fallback quiz question built at app.py lines 142-148. -/
def quizFallbackQuestion : JValue :=
  JValue.obj
    [("question", JValue.str "What is the main topic discussed in the video?"),
     ("options", JValue.arr
       [JValue.str "Topic A", JValue.str "Topic B", JValue.str "Topic C", JValue.str "Topic D"]),
     ("answer", JValue.str "Topic A")]

/-- The fallback quiz question list (a one-element list). -/
def quizFallback : JValue := JValue.arr [quizFallbackQuestion]

/-- The fallback matching pair built at app.py lines 203-208. -/
def pairsFallbackPair : JValue :=
  JValue.obj
    [("term", JValue.str "Key Concept"),
     ("definition", JValue.str "An important idea from the video")]

/-- The fallback matching-pair list (a one-element list). -/
def pairsFallback : JValue := JValue.arr [pairsFallbackPair]

/-- Lines 126-148 of app.py (generate_quiz_with_ai's parsing step): strip the
content, extract the slice from the first left brace to the last right brace,
json.loads it and return data.get("questions", []); on json.JSONDecodeError
return the fallback list; when a brace is missing raise
"No JSON found in response" (this raise is NOT caught by the inner
`except json.JSONDecodeError` handler, so it propagates). -/
def parseQuizContent (decode : String → Option (List (String × JValue)))
    (content : String) : Except String JValue :=
  let c := pyStrip content
  match bracedSub c.data with
  | some sub =>
    match decode (String.mk sub) with
    | some data => Except.ok (pyDictGet data "questions" (JValue.arr []))
    | none => Except.ok quizFallback
  | none => Except.error "No JSON found in response"

/-- Lines 187-208 of app.py (generate_matching_pairs_with_ai's parsing step),
identical in shape to parseQuizContent but extracting "pairs". -/
def parsePairsContent (decode : String → Option (List (String × JValue)))
    (content : String) : Except String JValue :=
  let c := pyStrip content
  match bracedSub c.data with
  | some sub =>
    match decode (String.mk sub) with
    | some data => Except.ok (pyDictGet data "pairs" (JValue.arr []))
    | none => Except.ok pairsFallback
  | none => Except.error "No JSON found in response"

/- ## Prompts (the exact f-string text of app.py) -/

/-- The quiz prompt of app.py lines 94-112 (curly braces written with
hexadecimal escapes). -/
def quizPrompt (summary : String) : String :=
  "\n        Based on the following summary, generate 5 multiple choice questions.\n        \n        Summary:\n        "
    ++ summary
    ++ "\n        \n        Return the questions in this exact JSON format:\n        \x7b\n            \"questions\": [\n                \x7b\n                    \"question\": \"Question text here?\",\n                    \"options\": [\"Option A\", \"Option B\", \"Option C\", \"Option D\"],\n                    \"answer\": \"Correct option text\"\n                \x7d\n            ]\n        \x7d\n        \n        Make sure the questions test understanding of key concepts from the summary.\n        "

/-- The matching-pairs prompt of app.py lines 156-173. -/
def pairsPrompt (summary : String) : String :=
  "\n        Based on the following summary, generate 5 term-definition pairs for a matching game.\n        \n        Summary:\n        "
    ++ summary
    ++ "\n        \n        Return the pairs in this exact JSON format:\n        \x7b\n            \"pairs\": [\n                \x7b\n                    \"term\": \"Term here\",\n                    \"definition\": \"Definition here\"\n                \x7d\n            ]\n        \x7d\n        \n        Choose important terms and concepts from the summary that would be good for learning.\n        "

/- ## AI-backed generators

The LLM provider (openai.ChatCompletion.create followed by reading
response.choices[0].message.content) is abstracted as
`llm : String → Except String (Option String)`: it receives the prompt and
either raises (error, caught by the enclosing `except Exception` handler) or
returns the content, which may be None.  In Python, `if not content` is true
for both None and the empty string. -/

/-- app.py lines 91-151: generate_quiz_with_ai.  The outer
`except Exception as e` handler rewraps every raised message. -/
def generate_quiz_with_ai (decode : String → Option (List (String × JValue)))
    (llm : String → Except String (Option String)) (summary : String) :
    Except String JValue :=
  match llm (quizPrompt summary) with
  | Except.error m => Except.error ("Failed to generate quiz: " ++ m)
  | Except.ok none => Except.error "Failed to generate quiz: No content received from AI"
  | Except.ok (some content) =>
    if content = "" then Except.error "Failed to generate quiz: No content received from AI"
    else
      match parseQuizContent decode content with
      | Except.ok v => Except.ok v
      | Except.error m => Except.error ("Failed to generate quiz: " ++ m)

/-- app.py lines 153-211: generate_matching_pairs_with_ai. -/
def generate_matching_pairs_with_ai (decode : String → Option (List (String × JValue)))
    (llm : String → Except String (Option String)) (summary : String) :
    Except String JValue :=
  match llm (pairsPrompt summary) with
  | Except.error m => Except.error ("Failed to generate matching pairs: " ++ m)
  | Except.ok none => Except.error "Failed to generate matching pairs: No content received from AI"
  | Except.ok (some content) =>
    if content = "" then Except.error "Failed to generate matching pairs: No content received from AI"
    else
      match parsePairsContent decode content with
      | Except.ok v => Except.ok v
      | Except.error m => Except.error ("Failed to generate matching pairs: " ++ m)

/- ## The Transcript Fetcher -/

/-- Exceptions the transcript provider can raise.  The first three mirror
TranscriptsDisabled, NoTranscriptFound and VideoUnavailable from
youtube_transcript_api._errors; otherError covers every other Exception,
carrying its str(e) message. -/
inductive TranscriptError where
  | transcriptsDisabled (msg : String)
  | noTranscriptFound (msg : String)
  | videoUnavailable (msg : String)
  | otherError (msg : String)

/-- app.py lines 33-56: get_youtube_transcript.  The provider interaction
(list_transcripts, the English-preferring track selection and fetch, lines
37-47) is abstracted as a single function from the video id to either the
chosen track's fragment texts or a raised provider exception; the body then
joins fragment texts with single spaces (line 50).  The except clauses of
lines 53-56 map the three named conditions to the fixed message (with its
trailing period, as written in the source) and any other exception to
"Failed to get transcript: " followed by the underlying message. -/
def get_youtube_transcript (provider : String → Except TranscriptError (List String))
    (video_id : String) : Except String String :=
  match provider video_id with
  | Except.ok parts => Except.ok (pyJoin " " parts)
  | Except.error (TranscriptError.transcriptsDisabled _) =>
    Except.error "No transcript available for this video."
  | Except.error (TranscriptError.noTranscriptFound _) =>
    Except.error "No transcript available for this video."
  | Except.error (TranscriptError.videoUnavailable _) =>
    Except.error "No transcript available for this video."
  | Except.error (TranscriptError.otherError m) =>
    Except.error ("Failed to get transcript: " ++ m)

/- ## The summary generator -/

/-- app.py lines 61-65 and 68: length_instructions.get(length,
'in 1-2 paragraphs'). -/
def length_instruction (length : String) : String :=
  if length = "short" then "in 2-3 sentences"
  else if length = "medium" then "in 1-2 paragraphs"
  else if length = "long" then "in 3-4 paragraphs with detailed analysis"
  else "in 1-2 paragraphs"

/-- Python transcript[:4000] (app.py line 71): the first 4000 characters. -/
def truncate4000 (transcript : String) : String := String.mk (transcript.data.take 4000)

/-- The summary prompt text before the length instruction. -/
def summaryPromptPre : String :=
  "\n        Summarize the following YouTube video transcript "

/-- The summary prompt text between the length instruction and the truncated
transcript. -/
def summaryPromptMid : String :=
  ".\n        \n        Transcript:\n        "

/-- The summary prompt text after the truncated transcript (the
"# Limit ..." text is inside the f-string, hence part of the prompt). -/
def summaryPromptPost : String :=
  "  # Limit to first 4000 characters to avoid token limits\n        \n        Please provide a comprehensive summary that captures the main points, key insights, and important details.\n        "

/-- The full summary prompt of app.py lines 67-74. -/
def summaryPrompt (transcript : String) (length : String) : String :=
  summaryPromptPre ++ length_instruction length ++ summaryPromptMid
    ++ truncate4000 transcript ++ summaryPromptPost

/-- app.py lines 58-89: generate_summary_with_ai. -/
def generate_summary_with_ai (llm : String → Except String (Option String))
    (transcript : String) (length : String) : Except String String :=
  match llm (summaryPrompt transcript length) with
  | Except.error m => Except.error ("Failed to generate summary: " ++ m)
  | Except.ok none => Except.error "Failed to generate summary: No content received from AI"
  | Except.ok (some content) =>
    if content = "" then Except.error "Failed to generate summary: No content received from AI"
    else Except.ok (pyStrip content)

/- ## The URL Resolver

extract_video_id (app.py lines 20-31) applies two regular expressions with
re.search, in order:
  (?:youtube\.com\/watch\?v=|youtu\.be\/|youtube\.com\/embed\/)([^&\n?#]+)
  youtube\.com\/watch\?.*v=([^&\n?#]+)
The embedding below implements re.search semantics for exactly these two
patterns: the leftmost starting position wins; at a position, alternatives
are tried in written order; the dot of .* does not match a newline and is
greedy, so the last possible v= marker on the line is used; each capture
group [^&\n?#]+ greedily takes the longest nonempty run of allowed
characters. -/

/-- Characters matched by the capture class [^&\n?#]. -/
def allowedIdChar (c : Char) : Bool :=
  !(c = '&' || c = '\n' || c = '?' || c = '#')

/-- The first literal alternative of pattern 1. -/
def marker1 : List Char := "youtube.com/watch?v=".data

/-- The second literal alternative of pattern 1. -/
def marker2 : List Char := "youtu.be/".data

/-- The third literal alternative of pattern 1. -/
def marker3 : List Char := "youtube.com/embed/".data

/-- The literal part of pattern 2. -/
def marker4 : List Char := "youtube.com/watch?".data

/-- The literal v= preceding the capture group of pattern 2. -/
def vMark : List Char := "v=".data

/-- Match a literal marker followed by the capture group [^&\n?#]+ at the
start of cs: the capture is the maximal nonempty run of allowed characters
after the marker. -/
def tryPrefix (pfx : List Char) (cs : List Char) : Option (List Char) :=
  if pfx.isPrefixOf cs then
    let run := (cs.drop pfx.length).takeWhile allowedIdChar
    if run = [] then none else some run
  else none

/-- Pattern 1 anchored at the start of cs: the three alternatives tried in
order. -/
def pat1At (cs : List Char) : Option (List Char) :=
  match tryPrefix marker1 cs with
  | some r => some r
  | none =>
    match tryPrefix marker2 cs with
    | some r => some r
    | none => tryPrefix marker3 cs

/-- Number of characters .* may consume: the dot does not match a newline. -/
def dotStarLimit (cs : List Char) : Nat :=
  (cs.takeWhile (fun c => !(c = '\n'))).length

/-- Greedy backtracking for .* : try the longest extent first. -/
def greedyFrom (f : Nat → Option α) : Nat → Option α
  | 0 => f 0
  | k + 1 =>
    match f (k + 1) with
    | some r => some r
    | none => greedyFrom f k

/-- Pattern 2 anchored at the start of cs: the literal marker, then greedy
.*, then v= and the capture group. -/
def pat2At (cs : List Char) : Option (List Char) :=
  if marker4.isPrefixOf cs then
    let rest := cs.drop marker4.length
    greedyFrom (fun k => tryPrefix vMark (rest.drop k)) (dotStarLimit rest)
  else none

/-- re.search: try the anchored matcher at every position, leftmost first. -/
def pySearch (f : List Char → Option α) : List Char → Option α
  | [] => f []
  | c :: cs =>
    match f (c :: cs) with
    | some r => some r
    | none => pySearch f cs

/-- app.py lines 20-31: extract_video_id. -/
def extract_video_id (url : String) : Option String :=
  match pySearch pat1At url.data with
  | some r => some (String.mk r)
  | none =>
    match pySearch pat2At url.data with
    | some r => some (String.mk r)
    | none => none

/- ## The /api/summarize route -/

/-- app.py lines 213-242: the summarize handler.  The request body's url
field is modeled as an Option String (none when absent); Python's
`if not url` is true for a missing url and for the empty string.  Handler
results are modeled as a status code paired with the JSON body's key/value
list; every exception raised by the pipeline is caught at line 240 and
returned as a 500 with the exception message. -/
def summarize_route (provider : String → Except TranscriptError (List String))
    (llm : String → Except String (Option String)) (url : Option String) :
    Nat × List (String × String) :=
  match url with
  | none => (400, [("error", "URL is required")])
  | some u =>
    if u = "" then (400, [("error", "URL is required")])
    else
      match extract_video_id u with
      | none => (400, [("error", "Invalid YouTube URL")])
      | some vid =>
        match get_youtube_transcript provider vid with
        | Except.error m => (500, [("error", m)])
        | Except.ok transcript =>
          match generate_summary_with_ai llm transcript "medium" with
          | Except.error m => (500, [("error", m)])
          | Except.ok summary =>
            (200, [("summary", summary), ("transcript", transcript), ("video_id", vid)])

/- ## Field lookup helpers for quiz questions -/

/-- Look up a field of a decoded JSON object value (none on other shapes). -/
def jObjGet (v : JValue) (k : String) : Option JValue :=
  match v with
  | JValue.obj kvs =>
    match kvs.reverse.find? (fun e => e.1 == k) with
    | some e => some e.2
    | none => none
  | _ => none

/-- The QuizQuestion invariant of the spec's data model: an options field
holding exactly 4 strings and an answer string equal to one of them. -/
def isFourOptionQuestion (q : JValue) : Bool :=
  match jObjGet q "options", jObjGet q "answer" with
  | some (JValue.arr opts), some (JValue.str a) =>
    opts.length == 4
      && opts.all (fun o => match o with | JValue.str _ => true | _ => false)
      && opts.any (fun o => match o with | JValue.str s => s == a | _ => false)
  | _, _ => false

/-- A decoded quiz question violating the QuizQuestion invariant: one option
only, and an answer not among the options. -/
def badQuizQuestion : JValue :=
  JValue.obj
    [("question", JValue.str "q"),
     ("options", JValue.arr [JValue.str "a"]),
     ("answer", JValue.str "z")]

/-- A decoder returning a payload whose single question violates the
QuizQuestion invariant. -/
def badQuizDecode : String → Option (List (String × JValue)) :=
  fun _ => some [("questions", JValue.arr [badQuizQuestion])]

/- ## Sanity examples for the URL resolver (concrete evaluations) -/

example : extract_video_id "https://www.youtube.com/watch?v=abc123" = some "abc123" := rfl

example : extract_video_id "https://youtu.be/abc123" = some "abc123" := rfl

example : extract_video_id "https://www.youtube.com/embed/abc123" = some "abc123" := rfl

example : extract_video_id "https://www.youtube.com/watch?list=PL1&v=abc123" = some "abc123" := rfl

example : extract_video_id "not a url" = none := rfl

example : extract_video_id "https://www.youtube.com/watch?list=PL1&v=v=b" = some "b" := rfl

example : bracedSub "a\x7bb\x7dc".data = some "\x7bb\x7d".data := rfl

example : bracedSub "plain prose".data = none := rfl

example : pyJoin " " ["Hello ", "world."] = "Hello  world." := rfl

/- ## Lemmas about find, rfind and strip -/

/-- If a character is absent from a list, pyFindIdx fails. -/
theorem pyFindIdx_eq_none (c : Char) (l : List Char) (h : c ∉ l) :
    pyFindIdx c l = none := by
  induction l with
  | nil => rfl
  | cons x xs ih =>
    simp only [List.mem_cons, not_or] at h
    have hx : ¬ x = c := fun hh => h.1 hh.symm
    simp [pyFindIdx, hx, ih h.2]

/-- If a character is absent from a list, pyRFindIdx fails. -/
theorem pyRFindIdx_eq_none (c : Char) (l : List Char) (h : c ∉ l) :
    pyRFindIdx c l = none := by
  induction l with
  | nil => rfl
  | cons x xs ih =>
    simp only [List.mem_cons, not_or] at h
    have hx : ¬ x = c := fun hh => h.1 hh.symm
    simp [pyRFindIdx, hx, ih h.2]

/-- Prepending characters that are not c shifts the first index of c. -/
theorem pyFindIdx_append (c : Char) (p x : List Char) (hp : c ∉ p) :
    pyFindIdx c (p ++ x) = (pyFindIdx c x).map (· + p.length) := by
  induction p with
  | nil =>
    rw [List.nil_append]
    cases h : pyFindIdx c x <;> simp [h]
  | cons a p' ih =>
    simp only [List.mem_cons, not_or] at hp
    have ha : ¬ a = c := fun hh => hp.1 hh.symm
    rw [List.cons_append]
    simp only [pyFindIdx, ha, if_false, ih hp.2]
    cases pyFindIdx c x <;> simp <;> omega

/-- Appending characters that are not c does not change the first index of c. -/
theorem pyFindIdx_append_right (c : Char) (x q : List Char) (hq : c ∉ q) :
    pyFindIdx c (x ++ q) = pyFindIdx c x := by
  induction x with
  | nil => simpa using pyFindIdx_eq_none c q hq
  | cons a x' ih => by_cases ha : a = c <;> simp [pyFindIdx, ha, ih]

/-- Prepending characters that are not c shifts the last index of c. -/
theorem pyRFindIdx_append (c : Char) (p x : List Char) (hp : c ∉ p) :
    pyRFindIdx c (p ++ x) = (pyRFindIdx c x).map (· + p.length) := by
  induction p with
  | nil =>
    rw [List.nil_append]
    cases h : pyRFindIdx c x <;> simp [h]
  | cons a p' ih =>
    simp only [List.mem_cons, not_or] at hp
    have ha : ¬ a = c := fun hh => hp.1 hh.symm
    rw [List.cons_append]
    simp only [pyRFindIdx, ih hp.2]
    cases pyRFindIdx c x <;> simp [ha] <;> omega

/-- Appending characters that are not c does not change the last index of c. -/
theorem pyRFindIdx_append_right (c : Char) (x q : List Char) (hq : c ∉ q) :
    pyRFindIdx c (x ++ q) = pyRFindIdx c x := by
  induction x with
  | nil => simpa using pyRFindIdx_eq_none c q hq
  | cons a x' ih =>
    simp only [List.cons_append, pyRFindIdx]
    rw [show x'.append q = x' ++ q from rfl, ih]

/-- A found last index is a valid index. -/
theorem pyRFindIdx_lt (c : Char) (l : List Char) (j : Nat)
    (h : pyRFindIdx c l = some j) : j < l.length := by
  induction l generalizing j with
  | nil => simp [pyRFindIdx] at h
  | cons x xs ih =>
    simp only [pyRFindIdx] at h
    cases hx : pyRFindIdx c xs with
    | some j' =>
      rw [hx] at h
      cases h
      have := ih j' hx
      simp only [List.length_cons]
      omega
    | none =>
      rw [hx] at h
      by_cases hc : x = c
      · simp [hc] at h
        simp [← h]
      · simp [hc] at h

/-- Taking past a leading block keeps the block and takes from the tail. -/
theorem take_append_len (p x : List α) (n : Nat) :
    (p ++ x).take (p.length + n) = p ++ x.take n := by
  induction p with
  | nil => simp
  | cons a p' ih =>
    rw [List.cons_append, List.length_cons, Nat.add_right_comm, List.take_succ_cons, ih,
      List.cons_append]

/-- Dropping past a leading block drops the whole block and more. -/
theorem drop_append_len (p x : List α) (n : Nat) :
    (p ++ x).drop (p.length + n) = x.drop n := by
  induction p with
  | nil => simp
  | cons a p' ih =>
    rw [List.cons_append, List.length_cons, Nat.add_right_comm, List.drop_succ_cons, ih]

/-- Any list splits as whitespace padding around its stripped core. -/
theorem strip_split (l : List Char) :
    ∃ p q, l = p ++ stripChars l ++ q ∧
      (∀ c ∈ p, isPySpace c = true) ∧ (∀ c ∈ q, isPySpace c = true) := by
  refine ⟨l.takeWhile isPySpace,
    ((l.dropWhile isPySpace).reverse.takeWhile isPySpace).reverse, ?_, ?_, ?_⟩
  · conv_lhs => rw [← List.takeWhile_append_dropWhile isPySpace l]
    rw [List.append_assoc]
    congr 1
    have h := List.takeWhile_append_dropWhile isPySpace (l.dropWhile isPySpace).reverse
    calc l.dropWhile isPySpace
        = ((l.dropWhile isPySpace).reverse).reverse := by rw [List.reverse_reverse]
      _ = (List.takeWhile isPySpace (l.dropWhile isPySpace).reverse ++
            List.dropWhile isPySpace (l.dropWhile isPySpace).reverse).reverse := by rw [h]
      _ = stripChars l ++
            (List.takeWhile isPySpace (l.dropWhile isPySpace).reverse).reverse := by
            rw [List.reverse_append]; rfl
  · exact fun c hc => List.mem_takeWhile_imp hc
  · intro c hc
    rw [List.mem_reverse] at hc
    exact List.mem_takeWhile_imp hc

/-- The stripped core is a sublist of the original list. -/
theorem stripChars_sublist (l : List Char) : (stripChars l).Sublist l := by
  have h2 : (((l.dropWhile isPySpace).reverse.dropWhile isPySpace).reverse).Sublist
      (l.dropWhile isPySpace) := by
    have := List.Sublist.reverse
      (List.dropWhile_sublist (l := (l.dropWhile isPySpace).reverse) isPySpace)
    rwa [List.reverse_reverse] at this
  exact h2.trans (List.dropWhile_sublist _)

/-- Whitespace padding does not change the brace-delimited slice. -/
theorem bracedSub_pad (p m q : List Char)
    (hp : ∀ c ∈ p, isPySpace c = true) (hq : ∀ c ∈ q, isPySpace c = true) :
    bracedSub (p ++ m ++ q) = bracedSub m := by
  have hlp : lbrace ∉ p := fun hm => absurd (hp _ hm) (by decide)
  have hlq : lbrace ∉ q := fun hm => absurd (hq _ hm) (by decide)
  have hrp : rbrace ∉ p := fun hm => absurd (hp _ hm) (by decide)
  have hrq : rbrace ∉ q := fun hm => absurd (hq _ hm) (by decide)
  have h1 : pyFindIdx lbrace (p ++ m ++ q) = (pyFindIdx lbrace m).map (· + p.length) := by
    rw [List.append_assoc, pyFindIdx_append _ _ _ hlp, pyFindIdx_append_right _ _ _ hlq]
  have h2 : pyRFindIdx rbrace (p ++ m ++ q) = (pyRFindIdx rbrace m).map (· + p.length) := by
    rw [List.append_assoc, pyRFindIdx_append _ _ _ hrp, pyRFindIdx_append_right _ _ _ hrq]
  unfold bracedSub
  rw [h1, h2]
  cases hf : pyFindIdx lbrace m with
  | none => simp
  | some i =>
    cases hr : pyRFindIdx rbrace m with
    | none => simp
    | some j =>
      simp only [Option.map_some']
      congr 1
      have hj : j + 1 ≤ m.length := pyRFindIdx_lt _ _ _ hr
      rw [List.append_assoc, show j + p.length + 1 = p.length + (j + 1) by omega,
        take_append_len, show i + p.length = p.length + i by omega, drop_append_len,
        List.take_append_of_le_length hj]

/-- Stripping does not change the brace-delimited slice. -/
theorem bracedSub_stripChars (l : List Char) :
    bracedSub (stripChars l) = bracedSub l := by
  obtain ⟨p, q, hl, hp, hq⟩ := strip_split l
  conv_rhs => rw [hl]
  exact (bracedSub_pad p (stripChars l) q hp hq).symm

/-- Looking up a key absent from the decoded object yields the default. -/
theorem pyDictGet_of_not_mem (data : List (String × JValue)) (k : String)
    (dflt : JValue) (hk : k ∉ data.map Prod.fst) : pyDictGet data k dflt = dflt := by
  unfold pyDictGet
  have hnone : data.reverse.find? (fun e => e.1 == k) = none := by
    rw [List.find?_eq_none]
    intro e he hbeq
    rw [List.mem_reverse] at he
    rw [beq_iff_eq] at hbeq
    exact hk (hbeq ▸ List.mem_map_of_mem Prod.fst he)
  rw [hnone]

/- ## Claim C1 -/

/-- Claim C1 as stated is false: on a raw LLM output with no braces at all,
both parsers raise rather than returning the fallback; the inner
"No JSON found in response" exception is not a json.JSONDecodeError, so it
escapes the fallback handler and is rewrapped by the outer handler. -/
theorem braceless_output_errors_counterexample :
    generate_quiz_with_ai (fun _ => none) (fun _ => Except.ok (some "plain prose")) "s"
      = Except.error "Failed to generate quiz: No JSON found in response" ∧
    generate_matching_pairs_with_ai (fun _ => none) (fun _ => Except.ok (some "plain prose")) "s"
      = Except.error "Failed to generate matching pairs: No JSON found in response" :=
  ⟨rfl, rfl⟩

/-- Claim C1 (amended): for every raw LLM output string with no left brace
and no right brace, the quiz and pairs parsing steps raise the error
"No JSON found in response" (rewrapped by the outer handler) instead of
returning the fallback sequence; the fallback is reserved for JSON decode
failures of a brace-delimited slice. -/
theorem braceless_output_errors (decode : String → Option (List (String × JValue)))
    (content : String) (h1 : lbrace ∉ content.data) (h2 : rbrace ∉ content.data) :
    parseQuizContent decode content = Except.error "No JSON found in response" ∧
    parsePairsContent decode content = Except.error "No JSON found in response" := by
  have hs : lbrace ∉ stripChars content.data :=
    fun hm => h1 (List.Sublist.mem hm (stripChars_sublist content.data))
  have hb : bracedSub (stripChars content.data) = none := by
    unfold bracedSub
    rw [pyFindIdx_eq_none _ _ hs]
  constructor
  · simp only [parseQuizContent]
    rw [show (pyStrip content).data = stripChars content.data from rfl, hb]
  · simp only [parsePairsContent]
    rw [show (pyStrip content).data = stripChars content.data from rfl, hb]

/-- Witness for braceless_output_errors at the concrete input "plain prose". -/
theorem braceless_output_errors_witness :
    parseQuizContent (fun _ => none) "plain prose"
      = Except.error "No JSON found in response" ∧
    parsePairsContent (fun _ => none) "plain prose"
      = Except.error "No JSON found in response" :=
  braceless_output_errors (fun _ => none) "plain prose" (by decide) (by decide)

/- ## Claim C2 -/

/-- Claim C2: when the raw LLM output contains braces but the slice from the
first left brace to the last right brace does not decode as JSON, both
parsers return exactly their one-element fallback list, not an error.  The
JSON decoder is abstract, so this holds for whatever strings json.loads
rejects. -/
theorem fallback_on_undecodable_slice (decode : String → Option (List (String × JValue)))
    (content : String) (sub : List Char)
    (hsub : bracedSub content.data = some sub)
    (hdec : decode (String.mk sub) = none) :
    parseQuizContent decode content = Except.ok quizFallback ∧
    parsePairsContent decode content = Except.ok pairsFallback := by
  have hb : bracedSub (pyStrip content).data = some sub := by
    rw [show (pyStrip content).data = stripChars content.data from rfl,
      bracedSub_stripChars, hsub]
  constructor
  · simp only [parseQuizContent, hb, hdec]
  · simp only [parsePairsContent, hb, hdec]

/-- Witness for fallback_on_undecodable_slice at a concrete input whose
braced slice is rejected by the decoder. -/
theorem fallback_on_undecodable_slice_witness :
    parseQuizContent (fun _ => none) "a\x7bb\x7dc" = Except.ok quizFallback ∧
    parsePairsContent (fun _ => none) "a\x7bb\x7dc" = Except.ok pairsFallback :=
  fallback_on_undecodable_slice (fun _ => none) "a\x7bb\x7dc" ("\x7bb\x7d".data) rfl rfl

/- ## Claim C3 -/

/-- Claim C3: when the braced slice decodes to a JSON object that lacks the
questions (respectively pairs) field, the corresponding parser returns the
empty list — not the fallback and not an error. -/
theorem empty_list_on_missing_field (decode : String → Option (List (String × JValue)))
    (content : String) (sub : List Char) (data : List (String × JValue))
    (hsub : bracedSub content.data = some sub)
    (hdec : decode (String.mk sub) = some data) :
    ("questions" ∉ data.map Prod.fst →
      parseQuizContent decode content = Except.ok (JValue.arr [])) ∧
    ("pairs" ∉ data.map Prod.fst →
      parsePairsContent decode content = Except.ok (JValue.arr [])) := by
  have hb : bracedSub (pyStrip content).data = some sub := by
    rw [show (pyStrip content).data = stripChars content.data from rfl,
      bracedSub_stripChars, hsub]
  constructor
  · intro hk
    simp only [parseQuizContent, hb, hdec]
    rw [pyDictGet_of_not_mem _ _ _ hk]
  · intro hk
    simp only [parsePairsContent, hb, hdec]
    rw [pyDictGet_of_not_mem _ _ _ hk]

/-- Witness for empty_list_on_missing_field: a decoded object with only an
unrelated field yields the empty list from both parsers. -/
theorem empty_list_on_missing_field_witness :
    parseQuizContent (fun _ => some [("other", JValue.null)]) "a\x7bb\x7dc"
      = Except.ok (JValue.arr []) ∧
    parsePairsContent (fun _ => some [("other", JValue.null)]) "a\x7bb\x7dc"
      = Except.ok (JValue.arr []) := by
  have h := empty_list_on_missing_field (fun _ => some [("other", JValue.null)])
    "a\x7bb\x7dc" ("\x7bb\x7d".data) [("other", JValue.null)] rfl rfl
  exact ⟨h.1 (by decide), h.2 (by decide)⟩

/- ## Claim C9 -/

/-- Claim C9 as stated is false: the quiz parser returns decoded payloads
without any validation, so a decoded question with one option and a foreign
answer is passed through even though it violates the invariant. -/
theorem quiz_invariant_unchecked_counterexample :
    parseQuizContent badQuizDecode "\x7b\x7d"
      = Except.ok (JValue.arr [badQuizQuestion]) ∧
    isFourOptionQuestion badQuizQuestion = false :=
  ⟨rfl, rfl⟩

/-- Claim C9 (amended): the invariant — exactly 4 string options and an
answer equal to one of them — holds for the fallback question the quiz
parser builds itself, while questions decoded from the LLM payload are
returned unvalidated. -/
theorem quiz_fallback_invariant :
    quizFallback = JValue.arr [quizFallbackQuestion] ∧
    isFourOptionQuestion quizFallbackQuestion = true :=
  ⟨rfl, rfl⟩

/- ## Claim C4 -/

/-- Claim C4 as stated is false on one detail: the uniform message raised by
get_youtube_transcript ends with a period ("No transcript available for this
video."), while the claim states it without one. -/
theorem transcript_unavailable_message_counterexample :
    get_youtube_transcript
        (fun _ => Except.error (TranscriptError.transcriptsDisabled "disabled")) "vid"
      = Except.error "No transcript available for this video." ∧
    "No transcript available for this video." ≠ "No transcript available for this video" :=
  ⟨rfl, by decide⟩

/-- Claim C4 (amended): the three provider conditions transcripts-disabled,
no-transcript-found and video-unavailable are all mapped to the single
message "No transcript available for this video." (with its trailing
period), and any other provider failure is mapped to an error carrying the
underlying message after the "Failed to get transcript: " prefix. -/
theorem transcript_error_mapping (provider : String → Except TranscriptError (List String))
    (video_id : String) (m : String) :
    (provider video_id = Except.error (TranscriptError.transcriptsDisabled m) →
      get_youtube_transcript provider video_id
        = Except.error "No transcript available for this video.") ∧
    (provider video_id = Except.error (TranscriptError.noTranscriptFound m) →
      get_youtube_transcript provider video_id
        = Except.error "No transcript available for this video.") ∧
    (provider video_id = Except.error (TranscriptError.videoUnavailable m) →
      get_youtube_transcript provider video_id
        = Except.error "No transcript available for this video.") ∧
    (provider video_id = Except.error (TranscriptError.otherError m) →
      get_youtube_transcript provider video_id
        = Except.error ("Failed to get transcript: " ++ m)) := by
  refine ⟨fun h => ?_, fun h => ?_, fun h => ?_, fun h => ?_⟩ <;>
    simp [get_youtube_transcript, h]

/-- Witness for transcript_error_mapping: a no-transcript-found provider and
an otherwise-failing provider, at concrete inputs. -/
theorem transcript_error_mapping_witness :
    get_youtube_transcript
        (fun _ => Except.error (TranscriptError.noTranscriptFound "x")) "vid"
      = Except.error "No transcript available for this video." ∧
    get_youtube_transcript
        (fun _ => Except.error (TranscriptError.otherError "boom")) "vid"
      = Except.error "Failed to get transcript: boom" :=
  ⟨(transcript_error_mapping (fun _ => Except.error (TranscriptError.noTranscriptFound "x"))
      "vid" "x").2.1 rfl,
   (transcript_error_mapping (fun _ => Except.error (TranscriptError.otherError "boom"))
      "vid" "boom").2.2.2 rfl⟩

/- ## Claim C7 -/

/-- Joining with a single space is intercalation of a single space between
the fragments, in order. -/
theorem pyJoin_space_data : ∀ parts : List String,
    (pyJoin " " parts).data = List.intercalate [' '] (parts.map String.data)
  | [] => rfl
  | [x] => by simp [pyJoin, List.intercalate, List.intersperse]
  | x :: y :: rest => by
    have ih := pyJoin_space_data (y :: rest)
    simp only [pyJoin, String.data_append, ih]
    simp [List.intercalate, List.intersperse, List.append_assoc]

/-- Claim C7: when the provider returns the chosen track's fragments,
get_youtube_transcript returns exactly the fragment texts joined by one
space each, preserving order (stated via intercalation of a single space). -/
theorem transcript_joins_fragments (provider : String → Except TranscriptError (List String))
    (video_id : String) (parts : List String)
    (h : provider video_id = Except.ok parts) :
    get_youtube_transcript provider video_id = Except.ok (pyJoin " " parts) ∧
    (pyJoin " " parts).data = List.intercalate [' '] (parts.map String.data) :=
  ⟨by simp [get_youtube_transcript, h], pyJoin_space_data parts⟩

/-- Witness for transcript_joins_fragments at the fragments of end-to-end
scenario 1, whose join has the double space "Hello  world.". -/
theorem transcript_joins_fragments_witness :
    get_youtube_transcript (fun _ => Except.ok ["Hello ", "world."]) "abc123"
      = Except.ok (pyJoin " " ["Hello ", "world."]) ∧
    pyJoin " " ["Hello ", "world."] = "Hello  world." :=
  ⟨(transcript_joins_fragments (fun _ => Except.ok ["Hello ", "world."]) "abc123"
      ["Hello ", "world."] rfl).1, rfl⟩

/- ## Claim C8 -/

/-- Claim C8: the prompt built by generate_summary_with_ai embeds exactly
transcript[:4000]: a prefix of the transcript of at most 4000 characters,
equal to the full transcript when it is short enough and to exactly the
first 4000 characters when the transcript is longer. -/
theorem summary_prompt_truncates (transcript length : String) :
    summaryPrompt transcript length
      = summaryPromptPre ++ length_instruction length ++ summaryPromptMid
        ++ truncate4000 transcript ++ summaryPromptPost ∧
    (truncate4000 transcript).data.length ≤ 4000 ∧
    (truncate4000 transcript).data <+: transcript.data ∧
    (4000 ≤ transcript.data.length → (truncate4000 transcript).data.length = 4000) := by
  refine ⟨rfl, ?_, ?_, ?_⟩
  · show (transcript.data.take 4000).length ≤ 4000
    rw [List.length_take]
    exact inf_le_left
  · exact List.take_prefix 4000 transcript.data
  · intro h
    show (transcript.data.take 4000).length = 4000
    rw [List.length_take]
    exact Nat.min_eq_left h

/-- Witness for summary_prompt_truncates at a 10000-character transcript:
the embedded slice has exactly 4000 characters. -/
theorem summary_prompt_truncates_witness :
    (truncate4000 (String.mk (List.replicate 10000 'a'))).data.length = 4000 :=
  (summary_prompt_truncates (String.mk (List.replicate 10000 'a')) "medium").2.2.2
    (by rw [show (String.mk (List.replicate 10000 'a')).data
        = List.replicate 10000 'a' from rfl, List.length_replicate]
        omega)

/- ## Lemmas about the URL pattern matcher -/

/-- Stripping a common leading block preserves the prefix test. -/
theorem isPrefixOf_append_both (p a b : List Char) :
    (p ++ a).isPrefixOf (p ++ b) = a.isPrefixOf b := by
  induction p with
  | nil => rfl
  | cons c cs ih => simp [List.isPrefixOf, ih]

/-- A prefix test fails on a head mismatch. -/
theorem isPrefixOf_cons_ne (a b : Char) (as bs : List Char) (h : ¬ a = b) :
    (a :: as).isPrefixOf (b :: bs) = false := by
  simp [List.isPrefixOf, h]

/-- A list is a Boolean prefix of itself followed by anything. -/
theorem isPrefixOf_append_self (p x : List Char) : p.isPrefixOf (p ++ x) = true := by
  have h := isPrefixOf_append_both p [] x
  rw [List.append_nil] at h
  simp [h]

/-- tryPrefix fails when the marker is not a prefix. -/
theorem tryPrefix_none_of_not_prefix (p cs : List Char) (h : ¬ p <+: cs) :
    tryPrefix p cs = none := by
  have hb : p.isPrefixOf cs = false := by
    cases hh : p.isPrefixOf cs
    · rfl
    · exact absurd (List.isPrefixOf_iff_prefix.mp hh) h
  simp [tryPrefix, hb]

/-- tryPrefix at its own marker captures the whole remainder when the
remainder is a nonempty run of allowed characters. -/
theorem tryPrefix_append_self (pfx rest : List Char)
    (hall : ∀ c ∈ rest, allowedIdChar c = true) (hne : rest ≠ []) :
    tryPrefix pfx (pfx ++ rest) = some rest := by
  simp [tryPrefix, isPrefixOf_append_self, List.drop_left,
    List.takeWhile_eq_self_iff.mpr hall, hne]

/-- Pattern 1 fails at a position whose first character is not y (every
alternative's marker starts with y). -/
theorem pat1At_none_not_y (c : Char) (cs : List Char) (h : ¬ c = 'y') :
    pat1At (c :: cs) = none := by
  have hmk : ∀ rest : List Char, tryPrefix ('y' :: rest) (c :: cs) = none := by
    intro rest
    simp [tryPrefix, isPrefixOf_cons_ne 'y' c rest cs (fun hh => h hh.symm)]
  simp only [pat1At,
    show marker1 = 'y' :: "outube.com/watch?v=".data from rfl,
    show marker2 = 'y' :: "outu.be/".data from rfl,
    show marker3 = 'y' :: "outube.com/embed/".data from rfl, hmk]

/-- Pattern 2 fails at a position whose first character is not y. -/
theorem pat2At_none_not_y (c : Char) (cs : List Char) (h : ¬ c = 'y') :
    pat2At (c :: cs) = none := by
  simp [pat2At, show marker4 = 'y' :: "outube.com/watch?".data from rfl,
    isPrefixOf_cons_ne 'y' c _ cs (fun hh => h hh.symm)]

/-- Pattern 2 fails when its marker is not a prefix. -/
theorem pat2At_none_of_not_prefix (t : List Char) (h : ¬ marker4 <+: t) :
    pat2At t = none := by
  have hb : marker4.isPrefixOf t = false := by
    cases hh : marker4.isPrefixOf t
    · rfl
    · exact absurd (List.isPrefixOf_iff_prefix.mp hh) h
  simp [pat2At, hb]

/-- Pattern 1 fails when none of its three markers is a prefix. -/
theorem pat1At_none_of_no_marker (t : List Char)
    (h1 : ¬ marker1 <+: t) (h2 : ¬ marker2 <+: t) (h3 : ¬ marker3 <+: t) :
    pat1At t = none := by
  simp only [pat1At, tryPrefix_none_of_not_prefix _ _ h1,
    tryPrefix_none_of_not_prefix _ _ h2, tryPrefix_none_of_not_prefix _ _ h3]

/-- The search succeeds immediately when the matcher fires at the head. -/
theorem pySearch_head_some (f : List Char → Option α) (l : List Char) (r : α)
    (h : f l = some r) : pySearch f l = some r := by
  cases l <;> simp [pySearch, h]

/-- Positions where the matcher fails can be skipped by the search. -/
theorem pySearch_skip (f : List Char → Option α) (p cs : List Char)
    (h : ∀ n, n < p.length → f (p.drop n ++ cs) = none) :
    pySearch f (p ++ cs) = pySearch f cs := by
  induction p with
  | nil => rfl
  | cons a p' ih =>
    have h0 : f ((a :: p') ++ cs) = none := h 0 (by simp)
    rw [List.cons_append]
    rw [List.cons_append] at h0
    simp only [pySearch, h0]
    exact ih (fun n hn => h (n + 1) (by simpa using Nat.succ_lt_succ hn))

/-- The search fails when the matcher fails at every suffix. -/
theorem pySearch_none (f : List Char → Option α) (l : List Char)
    (h : ∀ n, f (l.drop n) = none) : pySearch f l = none := by
  induction l with
  | nil => exact h 0
  | cons a l' ih =>
    simp only [pySearch, show f (a :: l') = none from h 0]
    exact ih (fun n => h (n + 1))

/-- A prefix of a drop is an infix of the whole list. -/
theorem infix_of_prefix_of_drop {w l : List Char} {n : Nat} (h : w <+: l.drop n) :
    w <:+: l :=
  List.IsInfix.trans (List.IsPrefix.isInfix h) (List.IsSuffix.isInfix (List.drop_suffix n l))

/-- Greedy matching succeeds as soon as the current extent matches. -/
theorem greedyFrom_some (f : Nat → Option α) (k : Nat) (r : α) (h : f k = some r) :
    greedyFrom f k = some r := by
  cases k <;> simp [greedyFrom, h]

/-- Greedy matching descends past extents where the tail fails. -/
theorem greedyFrom_descend (f : Nat → Option α) :
    ∀ K k, k ≤ K → (∀ j, k < j → j ≤ K → f j = none) →
      greedyFrom f K = greedyFrom f k := by
  intro K
  induction K with
  | zero =>
    intro k hk _
    have : k = 0 := by omega
    rw [this]
  | succ K ih =>
    intro k hk h
    by_cases hkK : k = K + 1
    · rw [hkK]
    · have hK1 : f (K + 1) = none := h (K + 1) (by omega) (by omega)
      simp only [greedyFrom, hK1]
      exact ih k (by omega) (fun j hj hjK => h j hj (by omega))

/-- Characters of the identifier alphabet are not newlines. -/
theorem allowed_not_newline (c : Char) (h : allowedIdChar c = true) :
    (!(c = '\n') : Bool) = true := by
  by_cases hc : c = '\n'
  · rw [hc] at h
    exact absurd h (by decide)
  · simp [hc]

/- ## The three direct URL shapes -/

/-- The watch shape: pattern 1's first alternative fires at the marker. -/
theorem extract_watch_url (id : String) (hne : id.data ≠ [])
    (hall : ∀ c ∈ id.data, allowedIdChar c = true) :
    extract_video_id ("https://www.youtube.com/watch?v=" ++ id) = some id := by
  have hdata : ("https://www.youtube.com/watch?v=" ++ id).data
      = "https://www.".data ++ (marker1 ++ id.data) := by
    rw [String.data_append,
      show ("https://www.youtube.com/watch?v=" : String).data
        = "https://www.".data ++ marker1 from rfl, List.append_assoc]
  have hskip : pySearch pat1At ("https://www.".data ++ (marker1 ++ id.data))
      = pySearch pat1At (marker1 ++ id.data) := by
    apply pySearch_skip
    intro n hn
    rw [show ("https://www.".data).length = 12 from rfl] at hn
    interval_cases n <;> exact pat1At_none_not_y _ _ (by decide)
  have hhead : pat1At (marker1 ++ id.data) = some id.data := by
    simp only [pat1At, tryPrefix_append_self marker1 id.data hall hne]
  have hs : pySearch pat1At ("https://www.youtube.com/watch?v=" ++ id).data
      = some id.data := by
    rw [hdata, hskip]
    exact pySearch_head_some _ _ _ hhead
  simp only [extract_video_id, hs]

/-- The short-link shape: pattern 1's second alternative fires. -/
theorem extract_short_url (id : String) (hne : id.data ≠ [])
    (hall : ∀ c ∈ id.data, allowedIdChar c = true) :
    extract_video_id ("https://youtu.be/" ++ id) = some id := by
  have hdata : ("https://youtu.be/" ++ id).data
      = "https://".data ++ (marker2 ++ id.data) := by
    rw [String.data_append,
      show ("https://youtu.be/" : String).data = "https://".data ++ marker2 from rfl,
      List.append_assoc]
  have hskip : pySearch pat1At ("https://".data ++ (marker2 ++ id.data))
      = pySearch pat1At (marker2 ++ id.data) := by
    apply pySearch_skip
    intro n hn
    rw [show ("https://".data).length = 8 from rfl] at hn
    interval_cases n <;> exact pat1At_none_not_y _ _ (by decide)
  have hm1 : tryPrefix marker1 (marker2 ++ id.data) = none := by
    have h1 : marker2 ++ id.data = "youtu".data ++ (".be/".data ++ id.data) := by
      rw [show marker2 = "youtu".data ++ ".be/".data from rfl, List.append_assoc]
    have hb : marker1.isPrefixOf (marker2 ++ id.data) = false := by
      rw [h1, show marker1 = "youtu".data ++ "be.com/watch?v=".data from rfl,
        isPrefixOf_append_both]
      exact isPrefixOf_cons_ne 'b' '.' _ _ (by decide)
    simp [tryPrefix, hb]
  have hhead : pat1At (marker2 ++ id.data) = some id.data := by
    simp only [pat1At, hm1, tryPrefix_append_self marker2 id.data hall hne]
  have hs : pySearch pat1At ("https://youtu.be/" ++ id).data = some id.data := by
    rw [hdata, hskip]
    exact pySearch_head_some _ _ _ hhead
  simp only [extract_video_id, hs]

/-- The embed shape: pattern 1's third alternative fires. -/
theorem extract_embed_url (id : String) (hne : id.data ≠ [])
    (hall : ∀ c ∈ id.data, allowedIdChar c = true) :
    extract_video_id ("https://www.youtube.com/embed/" ++ id) = some id := by
  have hdata : ("https://www.youtube.com/embed/" ++ id).data
      = "https://www.".data ++ (marker3 ++ id.data) := by
    rw [String.data_append,
      show ("https://www.youtube.com/embed/" : String).data
        = "https://www.".data ++ marker3 from rfl, List.append_assoc]
  have hskip : pySearch pat1At ("https://www.".data ++ (marker3 ++ id.data))
      = pySearch pat1At (marker3 ++ id.data) := by
    apply pySearch_skip
    intro n hn
    rw [show ("https://www.".data).length = 12 from rfl] at hn
    interval_cases n <;> exact pat1At_none_not_y _ _ (by decide)
  have hm1 : tryPrefix marker1 (marker3 ++ id.data) = none := by
    have h1 : marker3 ++ id.data = "youtube.com/".data ++ ("embed/".data ++ id.data) := by
      rw [show marker3 = "youtube.com/".data ++ "embed/".data from rfl, List.append_assoc]
    have hb : marker1.isPrefixOf (marker3 ++ id.data) = false := by
      rw [h1, show marker1 = "youtube.com/".data ++ "watch?v=".data from rfl,
        isPrefixOf_append_both]
      exact isPrefixOf_cons_ne 'w' 'e' _ _ (by decide)
    simp [tryPrefix, hb]
  have hm2 : tryPrefix marker2 (marker3 ++ id.data) = none := by
    have h1 : marker3 ++ id.data = "youtu".data ++ ("be.com/embed/".data ++ id.data) := by
      rw [show marker3 = "youtu".data ++ "be.com/embed/".data from rfl, List.append_assoc]
    have hb : marker2.isPrefixOf (marker3 ++ id.data) = false := by
      rw [h1, show marker2 = "youtu".data ++ ".be/".data from rfl, isPrefixOf_append_both]
      exact isPrefixOf_cons_ne '.' 'b' _ _ (by decide)
    simp [tryPrefix, hb]
  have hhead : pat1At (marker3 ++ id.data) = some id.data := by
    simp only [pat1At, hm1, hm2, tryPrefix_append_self marker3 id.data hall hne]
  have hs : pySearch pat1At ("https://www.youtube.com/embed/" ++ id).data = some id.data := by
    rw [hdata, hskip]
    exact pySearch_head_some _ _ _ hhead
  simp only [extract_video_id, hs]

/- ## The reordered-query URL shape -/

/-- tryPrefix fails when the Boolean prefix test fails. -/
theorem tryPrefix_none_of_isPrefixOf_false (p cs : List Char)
    (h : p.isPrefixOf cs = false) : tryPrefix p cs = none := by
  unfold tryPrefix
  rw [h]
  rfl

/-- The reordered shape: pattern 1 fails everywhere, and pattern 2's greedy
dot-star backtracks to the last v= marker, which is the query's own v=
provided the identifier contains no v= of its own and no pattern-1 marker. -/
theorem extract_reordered_url (id : String) (hne : id.data ≠ [])
    (hall : ∀ c ∈ id.data, allowedIdChar c = true)
    (hm2 : ¬ marker2 <:+: id.data) (hm3 : ¬ marker3 <:+: id.data)
    (hv : ¬ vMark <:+: id.data) :
    extract_video_id ("https://www.youtube.com/watch?list=PL1&v=" ++ id) = some id := by
  have hdata : ("https://www.youtube.com/watch?list=PL1&v=" ++ id).data
      = "https://www.youtube.com/watch?list=PL1&v=".data ++ id.data :=
    String.data_append _ _
  -- Pattern 1 fails at the marker-4 position: all three alternatives mismatch.
  have hq1 : tryPrefix marker1 ("youtube.com/watch?list=PL1&v=".data ++ id.data) = none := by
    have h1 : "youtube.com/watch?list=PL1&v=".data ++ id.data
        = "youtube.com/watch?".data ++ ("list=PL1&v=".data ++ id.data) := by
      rw [show ("youtube.com/watch?list=PL1&v=" : String).data
        = "youtube.com/watch?".data ++ "list=PL1&v=".data from rfl, List.append_assoc]
    have hb : marker1.isPrefixOf ("youtube.com/watch?list=PL1&v=".data ++ id.data)
        = false := by
      rw [h1, show marker1 = "youtube.com/watch?".data ++ "v=".data from rfl,
        isPrefixOf_append_both]
      exact isPrefixOf_cons_ne 'v' 'l' _ _ (by decide)
    exact tryPrefix_none_of_isPrefixOf_false _ _ hb
  have hq2 : tryPrefix marker2 ("youtube.com/watch?list=PL1&v=".data ++ id.data) = none := by
    have h1 : "youtube.com/watch?list=PL1&v=".data ++ id.data
        = "youtu".data ++ ("be.com/watch?list=PL1&v=".data ++ id.data) := by
      rw [show ("youtube.com/watch?list=PL1&v=" : String).data
        = "youtu".data ++ "be.com/watch?list=PL1&v=".data from rfl, List.append_assoc]
    have hb : marker2.isPrefixOf ("youtube.com/watch?list=PL1&v=".data ++ id.data)
        = false := by
      rw [h1, show marker2 = "youtu".data ++ ".be/".data from rfl, isPrefixOf_append_both]
      exact isPrefixOf_cons_ne '.' 'b' _ _ (by decide)
    exact tryPrefix_none_of_isPrefixOf_false _ _ hb
  have hq3 : tryPrefix marker3 ("youtube.com/watch?list=PL1&v=".data ++ id.data) = none := by
    have h1 : "youtube.com/watch?list=PL1&v=".data ++ id.data
        = "youtube.com/".data ++ ("watch?list=PL1&v=".data ++ id.data) := by
      rw [show ("youtube.com/watch?list=PL1&v=" : String).data
        = "youtube.com/".data ++ "watch?list=PL1&v=".data from rfl, List.append_assoc]
    have hb : marker3.isPrefixOf ("youtube.com/watch?list=PL1&v=".data ++ id.data)
        = false := by
      rw [h1, show marker3 = "youtube.com/".data ++ "embed/".data from rfl,
        isPrefixOf_append_both]
      exact isPrefixOf_cons_ne 'e' 'w' _ _ (by decide)
    exact tryPrefix_none_of_isPrefixOf_false _ _ hb
  -- Pattern 1 fails at every position of the full URL.
  have hp1 : pySearch pat1At ("https://www.youtube.com/watch?list=PL1&v=".data ++ id.data)
      = none := by
    apply pySearch_none
    intro n
    by_cases hn : n < 41
    · rw [List.drop_append_of_le_length
        (by rw [show ("https://www.youtube.com/watch?list=PL1&v=".data).length = 41 from rfl]
            omega)]
      by_cases h12 : n = 12
      · rw [h12, show ("https://www.youtube.com/watch?list=PL1&v=".data).drop 12
          = "youtube.com/watch?list=PL1&v=".data from rfl]
        simp only [pat1At, hq1, hq2, hq3]
      · have h12' : n < 12 ∨ (13 ≤ n ∧ n < 41) := by omega
        rcases h12' with hlt | ⟨hge, hlt⟩
        · interval_cases n <;> exact pat1At_none_not_y _ _ (by decide)
        · interval_cases n <;> exact pat1At_none_not_y _ _ (by decide)
    · have hge : 41 ≤ n := by omega
      rw [show n = 41 + (n - 41) by omega,
        show (41 : Nat) + (n - 41)
          = ("https://www.youtube.com/watch?list=PL1&v=".data).length + (n - 41) from rfl,
        drop_append_len]
      apply pat1At_none_of_no_marker
      · intro hp
        have hin : marker1 <:+: id.data := infix_of_prefix_of_drop hp
        have hqm : '?' ∈ id.data := List.IsInfix.subset hin (by decide)
        exact absurd (hall '?' hqm) (by decide)
      · exact fun hp => hm2 (infix_of_prefix_of_drop hp)
      · exact fun hp => hm3 (infix_of_prefix_of_drop hp)
  -- Pattern 2 succeeds, capturing the identifier.
  have hp2 : pySearch pat2At ("https://www.youtube.com/watch?list=PL1&v=".data ++ id.data)
      = some id.data := by
    have hsplit : "https://www.youtube.com/watch?list=PL1&v=".data ++ id.data
        = "https://www.".data ++ (marker4 ++ ("list=PL1&v=".data ++ id.data)) := by
      rw [show ("https://www.youtube.com/watch?list=PL1&v=" : String).data
        = "https://www.".data ++ (marker4 ++ "list=PL1&v=".data) from rfl]
      simp [List.append_assoc]
    rw [hsplit]
    have hskip : pySearch pat2At
        ("https://www.".data ++ (marker4 ++ ("list=PL1&v=".data ++ id.data)))
        = pySearch pat2At (marker4 ++ ("list=PL1&v=".data ++ id.data)) := by
      apply pySearch_skip
      intro n hn
      rw [show ("https://www.".data).length = 12 from rfl] at hn
      interval_cases n <;> exact pat2At_none_not_y _ _ (by decide)
    rw [hskip]
    apply pySearch_head_some
    -- The anchored pattern-2 match at the marker.
    have hpre : marker4.isPrefixOf (marker4 ++ ("list=PL1&v=".data ++ id.data)) = true :=
      isPrefixOf_append_self _ _
    simp only [pat2At, hpre, if_true]
    rw [List.drop_left marker4 ("list=PL1&v=".data ++ id.data)]
    have hlimit : dotStarLimit ("list=PL1&v=".data ++ id.data) = 11 + id.data.length := by
      unfold dotStarLimit
      rw [List.takeWhile_eq_self_iff.mpr ?_, List.length_append,
        show ("list=PL1&v=".data).length = 11 from rfl]
      intro c hc
      rcases List.mem_append.mp hc with hcl | hcr
      · have hall' : ∀ c ∈ ("list=PL1&v=".data), (!(c = '\n') : Bool) = true := by decide
        exact hall' c hcl
      · exact allowed_not_newline c (hall c hcr)
    rw [hlimit]
    have hfail : ∀ j, 9 < j → j ≤ 11 + id.data.length →
        tryPrefix vMark (("list=PL1&v=".data ++ id.data).drop j) = none := by
      intro j hj9 hjK
      by_cases hj10 : j = 10
      · rw [hj10, List.drop_append_of_le_length
          (by rw [show ("list=PL1&v=".data).length = 11 from rfl]; omega),
          show ("list=PL1&v=".data).drop 10 = "=".data from rfl]
        have hb : vMark.isPrefixOf ("=".data ++ id.data) = false :=
          isPrefixOf_cons_ne 'v' '=' _ _ (by decide)
        exact tryPrefix_none_of_isPrefixOf_false _ _ hb
      · have hj11 : 11 ≤ j := by omega
        rw [show j = 11 + (j - 11) by omega,
          show (11 : Nat) + (j - 11) = ("list=PL1&v=".data).length + (j - 11) from rfl,
          drop_append_len]
        exact tryPrefix_none_of_not_prefix _ _ (fun hp => hv (infix_of_prefix_of_drop hp))
    have hdesc := greedyFrom_descend
      (fun k => tryPrefix vMark (("list=PL1&v=".data ++ id.data).drop k))
      (11 + id.data.length) 9 (by omega) hfail
    rw [hdesc]
    apply greedyFrom_some
    rw [List.drop_append_of_le_length
        (by rw [show ("list=PL1&v=".data).length = 11 from rfl]; omega),
      show ("list=PL1&v=".data).drop 9 = vMark from rfl]
    exact tryPrefix_append_self vMark id.data hall hne
  have hs1 : pySearch pat1At ("https://www.youtube.com/watch?list=PL1&v=" ++ id).data
      = none := by rw [hdata]; exact hp1
  have hs2 : pySearch pat2At ("https://www.youtube.com/watch?list=PL1&v=" ++ id).data
      = some id.data := by rw [hdata]; exact hp2
  simp only [extract_video_id, hs1, hs2]

/- ## Claim C5 -/

/-- Claim C5 as stated is false: the identifier "v=b" lies in the recognized
capture alphabet (no ampersand, newline, question mark or hash) and is
nonempty, yet the reordered-query shape carrying it resolves to "b" — the
greedy dot-star of pattern 2 backtracks to the v= embedded in the identifier
itself, not to the query's v=. -/
theorem reordered_url_embedded_marker_counterexample :
    "https://www.youtube.com/watch?list=PL1&v=" ++ "v=b"
      = "https://www.youtube.com/watch?list=PL1&v=v=b" ∧
    extract_video_id "https://www.youtube.com/watch?list=PL1&v=v=b" = some "b" ∧
    some "b" ≠ some "v=b" ∧
    ("v=b" : String).data.all allowedIdChar = true ∧ ("v=b" : String).data ≠ [] :=
  ⟨rfl, rfl, by decide, by decide, by decide⟩

/-- Claim C5 (amended): for every nonempty identifier over the capture
alphabet, the watch, short-link and embed shapes resolve to exactly that
identifier (pattern 1, first matching alternative); the reordered-query
shape also resolves to it provided the identifier does not itself contain
the markers "youtu.be/", "youtube.com/embed/" or "v=" as substrings. -/
theorem url_shapes_return_id (id : String) (hne : id.data ≠ [])
    (hall : ∀ c ∈ id.data, allowedIdChar c = true) :
    extract_video_id ("https://www.youtube.com/watch?v=" ++ id) = some id ∧
    extract_video_id ("https://youtu.be/" ++ id) = some id ∧
    extract_video_id ("https://www.youtube.com/embed/" ++ id) = some id ∧
    (¬ marker2 <:+: id.data → ¬ marker3 <:+: id.data → ¬ vMark <:+: id.data →
      extract_video_id ("https://www.youtube.com/watch?list=PL1&v=" ++ id) = some id) :=
  ⟨extract_watch_url id hne hall, extract_short_url id hne hall,
   extract_embed_url id hne hall,
   fun h2 h3 hv => extract_reordered_url id hne hall h2 h3 hv⟩

/-- Witness for url_shapes_return_id at the identifier "abc123". -/
theorem url_shapes_return_id_witness :
    extract_video_id ("https://www.youtube.com/watch?v=" ++ "abc123") = some "abc123" ∧
    extract_video_id ("https://youtu.be/" ++ "abc123") = some "abc123" ∧
    extract_video_id ("https://www.youtube.com/embed/" ++ "abc123") = some "abc123" ∧
    extract_video_id ("https://www.youtube.com/watch?list=PL1&v=" ++ "abc123")
      = some "abc123" := by
  have h := url_shapes_return_id "abc123" (by decide) (by decide)
  exact ⟨h.1, h.2.1, h.2.2.1, h.2.2.2 (by decide) (by decide) (by decide)⟩

/- ## Claim C6 -/

/-- Claim C6 as stated is false for the empty input string: it contains none
of the recognized URL shapes and extract_video_id maps it to None, but the
handler rejects it earlier with "URL is required" (Python's `if not url` is
true for the empty string), not with "Invalid YouTube URL". -/
theorem invalid_url_empty_counterexample :
    summarize_route (fun _ => Except.error (TranscriptError.otherError "e"))
        (fun _ => Except.ok none) (some "")
      = (400, [("error", "URL is required")]) ∧
    ((400 : Nat), [(("error" : String), ("URL is required" : String))])
      ≠ (400, [("error", "Invalid YouTube URL")]) ∧
    extract_video_id "" = none :=
  ⟨rfl, by decide, rfl⟩

/-- Claim C6 (amended): for every nonempty input string containing none of
the URL markers — "youtu.be/", "youtube.com/embed/", "youtube.com/watch?"
(which also begins pattern 1's watch marker) — extract_video_id returns
None and the summarize handler answers 400 with the body
error = "Invalid YouTube URL"; the empty string is instead rejected as
"URL is required". -/
theorem invalid_url_rejected (provider : String → Except TranscriptError (List String))
    (llm : String → Except String (Option String)) (u : String)
    (hne : u ≠ "")
    (h2 : ¬ marker2 <:+: u.data) (h3 : ¬ marker3 <:+: u.data)
    (h4 : ¬ marker4 <:+: u.data) :
    extract_video_id u = none ∧
    summarize_route provider llm (some u) = (400, [("error", "Invalid YouTube URL")]) := by
  have hext : extract_video_id u = none := by
    have hp1 : pySearch pat1At u.data = none := by
      apply pySearch_none
      intro n
      apply pat1At_none_of_no_marker
      · intro hp
        have hm4 : marker4 <+: u.data.drop n :=
          List.IsPrefix.trans ⟨"v=".data, rfl⟩ hp
        exact h4 (infix_of_prefix_of_drop hm4)
      · exact fun hp => h2 (infix_of_prefix_of_drop hp)
      · exact fun hp => h3 (infix_of_prefix_of_drop hp)
    have hp2 : pySearch pat2At u.data = none := by
      apply pySearch_none
      intro n
      exact pat2At_none_of_not_prefix _ (fun hp => h4 (infix_of_prefix_of_drop hp))
    simp only [extract_video_id, hp1, hp2]
  refine ⟨hext, ?_⟩
  simp only [summarize_route, hne, if_false, hext]

/-- Witness for invalid_url_rejected at the input of end-to-end scenario 2,
"not a url". -/
theorem invalid_url_rejected_witness :
    extract_video_id "not a url" = none ∧
    summarize_route (fun _ => Except.error (TranscriptError.otherError "e"))
        (fun _ => Except.ok none) (some "not a url")
      = (400, [("error", "Invalid YouTube URL")]) :=
  invalid_url_rejected (fun _ => Except.error (TranscriptError.otherError "e"))
    (fun _ => Except.ok none) "not a url" (by decide) (by decide) (by decide) (by decide)

/- ## Claim C10 -/

/-- Claim C10: the summarize handler always calls the summary generator with
the default length "medium" (app.py line 232 passes no length argument), so
the prompt carries the instruction "in 1-2 paragraphs"; the short and long
instructions are unreachable through the HTTP surface. -/
theorem summarize_uses_medium_length (provider : String → Except TranscriptError (List String))
    (llm : String → Except String (Option String)) (u vid transcript : String)
    (hx : extract_video_id u = some vid)
    (ht : get_youtube_transcript provider vid = Except.ok transcript) :
    summarize_route provider llm (some u)
      = (match generate_summary_with_ai llm transcript "medium" with
        | Except.ok s => (200, [("summary", s), ("transcript", transcript), ("video_id", vid)])
        | Except.error m => (500, [("error", m)])) ∧
    length_instruction "medium" = "in 1-2 paragraphs" ∧
    "in 1-2 paragraphs".data <:+: (summaryPrompt transcript "medium").data := by
  have hu : ¬ u = "" := by
    intro h
    rw [h, show extract_video_id "" = none from rfl] at hx
    exact Option.noConfusion hx
  refine ⟨?_, rfl, ?_⟩
  · simp only [summarize_route, hu, if_false, hx, ht]
    cases generate_summary_with_ai llm transcript "medium" <;> rfl
  · refine ⟨summaryPromptPre.data,
      (summaryPromptMid ++ truncate4000 transcript ++ summaryPromptPost).data, ?_⟩
    show summaryPromptPre.data ++ "in 1-2 paragraphs".data
        ++ (summaryPromptMid ++ truncate4000 transcript ++ summaryPromptPost).data
      = (summaryPrompt transcript "medium").data
    rw [show summaryPrompt transcript "medium"
        = summaryPromptPre ++ "in 1-2 paragraphs" ++ summaryPromptMid
          ++ truncate4000 transcript ++ summaryPromptPost from rfl]
    simp [String.data_append, List.append_assoc]

/-- Witness for summarize_uses_medium_length: the end-to-end scenario-1
pipeline with a concrete provider and a concrete LLM answer. -/
theorem summarize_uses_medium_length_witness :
    summarize_route (fun _ => Except.ok ["Hello ", "world."])
        (fun _ => Except.ok (some "S")) (some "https://youtu.be/abc123")
      = (200, [("summary", "S"), ("transcript", "Hello  world."), ("video_id", "abc123")]) ∧
    "in 1-2 paragraphs".data <:+: (summaryPrompt "Hello  world." "medium").data := by
  have h := summarize_uses_medium_length (fun _ => Except.ok ["Hello ", "world."])
    (fun _ => Except.ok (some "S")) "https://youtu.be/abc123" "abc123" "Hello  world."
    rfl rfl
  refine ⟨?_, h.2.2⟩
  rw [h.1]
  rfl
